import Mathlib

/-!
Shallow embedding of the thrift client pool (`clientpool.go`,
package `thrift_client_pool`).

The pool hands out opaque `Client` values.  Its mutable state is the
buffered channel `clients` (the idle buffer, capacity `maxIdle`; the
channel pointer is set to `nil` on shutdown) and the `uint32` counter
`opened`.  Channels are modelled as `Option (List (Option RawClient))`:
`none` is the nil channel after shutdown, the list is the buffer contents
in FIFO order (head = receive end), and elements are `Option RawClient`
because the Go element type is the interface `Client`, whose values may
be nil.  `uint32` arithmetic is `Nat` taken modulo `2 ^ 32`.

Network effects are parameters: `newSock` gives the outcome of
`thrift.NewTSocket(server)`, `dialE` the outcome of `socket.Open()`, and
the client factory (an immutable configuration field of the Go struct)
is passed as an explicit function argument `fac`.  Servers are opaque
identifiers (`Nat`).
-/

namespace ThriftClientPool

/-- The `uint32` modulus: `opened` is a Go `uint32`. -/
def u32 : Nat := 4294967296

/-- The error values of `clientpool.go` (package-level `errors.New`
variables) plus opaque dial / socket-creation / transport-close errors
coming from the thrift collaborator. -/
inductive GoError where
  | poolClosed
  | poolMaxOpenReached
  | clientMissingTransportField
  | clientNilTransportField
  | noPooledClient
  | dialErr (code : Nat)
  | sockErr (code : Nat)
  | transportCloseErr (code : Nat)
deriving Repr, DecidableEq

/-- What `reflect.ValueOf(cli).Elem().FieldByName("Transport")` finds on
an opaque client: no such field, a nil field, or a transport whose
`Close()` returns `closeErr` (`none` = success).  The reflect branch
where the field exists but is not a `thrift.TTransport` panics in Go and
is outside the model (the field, when present, is a transport). -/
inductive TField where
  | missing
  | nilRef
  | transport (closeErr : Option GoError)
deriving Repr, DecidableEq

/-- An opaque client produced by the factory: an identity plus what its
`Transport` field looks like to `closeClient`. -/
structure RawClient where
  id : Nat
  tfield : TField
deriving Repr, DecidableEq

/-- A socket as the factory sees it: the chosen server and the timeout
in effect (after the success path of `openClient` this is
`readTimeout`). -/
structure SocketV where
  server : Nat
  timeout : Int
deriving Repr, DecidableEq

/-- The state of `ChannelClientPool`: the idle channel (`none` = the nil
channel installed by `Close`), the `opened` counter and the immutable
configuration.  The mutex is implicit: each Lean function is one
critical section / atomic step unless split explicitly (see the
interleaving model below). -/
structure PoolState where
  clients : Option (List (Option RawClient))
  opened : Nat
  maxIdle : Nat
  maxOpen : Nat
  servers : List Nat
  connectTimeout : Int
  readTimeout : Int
deriving Repr, DecidableEq

/-- `pooledClient`: the wrapper handle returned by `Get` (the `pool`
back-pointer is the `PoolState` argument of the functions below). -/
structure PooledClientH where
  client : Option RawClient
  unusable : Bool
deriving Repr, DecidableEq

/-- `NewChannelClientPool`: fresh pool with an empty idle buffer of
capacity `maxIdle` and `opened = 0` (zero value). -/
def NewChannelClientPool (maxIdle maxOpen : Nat) (servers : List Nat)
    (connectTimeout readTimeout : Int) : PoolState :=
  { clients := some []
    opened := 0
    maxIdle := maxIdle
    maxOpen := maxOpen
    servers := servers
    connectTimeout := connectTimeout
    readTimeout := readTimeout }

/-- `Size()`: `len(pool.clients)`; the length of a nil channel is 0. -/
def Size (pool : PoolState) : Nat :=
  match pool.clients with
  | none => 0
  | some buf => buf.length

/-- Non-blocking send on a buffered channel of capacity `cap`, i.e. the
`select { case ch <- x: ...; default: }` used by `closePooledClient`:
succeeds exactly when the buffer has room, otherwise falls through to
the default branch leaving the buffer unchanged.  Total in every state:
this operation never waits. -/
def trySend (cap : Nat) (buf : List (Option RawClient)) (x : Option RawClient) :
    List (Option RawClient) × Bool :=
  if buf.length < cap then (buf ++ [x], true) else (buf, false)

/-- `getFromPool`: under the mutex, fail with `ErrPoolClosed` on a nil
channel, otherwise a non-blocking receive (`select` with `default`):
pop the head or fail with `errNoPooledClient`. -/
def getFromPool (pool : PoolState) :
    Option RawClient × Option GoError × PoolState :=
  match pool.clients with
  | none => (none, some GoError.poolClosed, pool)
  | some [] => (none, some GoError.noPooledClient, pool)
  | some (c :: rest) => (c, none, { pool with clients := some rest })

/-- Instrumented result of `openClient`.  Besides the Go return value
(`result`) and the new `opened`, it records the ghost observables the
spec talks about: how many times `socket.Open()` was called (0 or 1: there is no retry
loop), the socket timeout in effect at that call, the timeout after the
success path, how many times the factory ran, and which server was
chosen. -/
structure OpenResult where
  result : Except GoError (Option RawClient)
  opened : Nat
  dialAttempts : Nat
  dialTimeout : Option Int
  finalTimeout : Option Int
  factoryCalls : Nat
  chosenServer : Option Nat
deriving Repr

/-- `openClient` (`clientpool.go`): ceiling check
(`pool.maxOpen != 0 && atomic.LoadUint32(&pool.opened) >= pool.maxOpen`),
then `servers[rand.Int()%len(servers)]`, `thrift.NewTSocket`,
`SetTimeout(connectTimeout)`, `Open()`, `SetTimeout(readTimeout)`,
`atomic.AddUint32(&pool.opened, 1)` when `maxOpen != 0`, and one factory
call.  `r` is the value of `rand.Int()`; `newSock` and `dialE` are the
collaborator outcomes for a given server. -/
def openClient (pool : PoolState) (r : Nat)
    (newSock : Nat → Option GoError) (dialE : Nat → Option GoError)
    (fac : SocketV → Option RawClient) : OpenResult :=
  if pool.maxOpen ≠ 0 ∧ pool.maxOpen ≤ pool.opened then
    { result := Except.error GoError.poolMaxOpenReached
      opened := pool.opened
      dialAttempts := 0
      dialTimeout := none
      finalTimeout := none
      factoryCalls := 0
      chosenServer := none }
  else
    let server := pool.servers.getD (r % pool.servers.length) 0
    match newSock server with
    | some e =>
      { result := Except.error e
        opened := pool.opened
        dialAttempts := 0
        dialTimeout := none
        finalTimeout := none
        factoryCalls := 0
        chosenServer := some server }
    | none =>
      match dialE server with
      | some e =>
        { result := Except.error e
          opened := pool.opened
          dialAttempts := 1
          dialTimeout := some pool.connectTimeout
          finalTimeout := none
          factoryCalls := 0
          chosenServer := some server }
      | none =>
        { result := Except.ok (fac { server := server, timeout := pool.readTimeout })
          opened := if pool.maxOpen ≠ 0 then (pool.opened + 1) % u32 else pool.opened
          dialAttempts := 1
          dialTimeout := some pool.connectTimeout
          finalTimeout := some pool.readTimeout
          factoryCalls := 1
          chosenServer := some server }

/-- Instrumented result of `Get`. -/
structure GetResult where
  cli : Option PooledClientH
  err : Option GoError
  pool : PoolState
  dialAttempts : Nat
deriving Repr

/-- `Get`: `getFromPool`; on `ErrPoolClosed` return it; if no raw client
was popped, `openClient` (propagating its error); otherwise wrap the raw
client in a fresh `pooledClient` with `unusable = false`. -/
def Get (pool : PoolState) (r : Nat)
    (newSock : Nat → Option GoError) (dialE : Nat → Option GoError)
    (fac : SocketV → Option RawClient) : GetResult :=
  let g := getFromPool pool
  if g.2.1 = some GoError.poolClosed then
    { cli := none, err := some GoError.poolClosed, pool := g.2.2
      dialAttempts := 0 }
  else
    match g.1 with
    | some c =>
      { cli := some { client := some c, unusable := false }, err := none
        pool := g.2.2, dialAttempts := 0 }
    | none =>
      let o := openClient g.2.2 r newSock dialE fac
      match o.result with
      | Except.error e =>
        { cli := none, err := some e
          pool := { g.2.2 with opened := o.opened }
          dialAttempts := o.dialAttempts }
      | Except.ok rc =>
        { cli := some { client := rc, unusable := false }, err := none
          pool := { g.2.2 with opened := o.opened }
          dialAttempts := o.dialAttempts }

/-- Result of `closeClient` on one raw client: the returned error, the
new `opened`, and a ghost flag recording that the non-nil path (the
decrement plus transport inspection, i.e. physical teardown) ran. -/
structure TearResult where
  err : Option GoError
  opened : Nat
  toreDown : Bool
deriving Repr, DecidableEq

/-- `closeClient` (`clientpool.go`): a nil client is a no-op returning
nil; otherwise `atomic.AddUint32(&pool.opened, ^uint32(0))` (a `uint32`
decrement) when `maxOpen != 0`, then the reflect lookup of the
`Transport` field: missing field, nil field, or `transport.Close()`. -/
def closeClient (maxOpen opened : Nat) (cli : Option RawClient) : TearResult :=
  match cli with
  | none => { err := none, opened := opened, toreDown := false }
  | some c =>
    let opened' := if maxOpen ≠ 0 then (opened + (u32 - 1)) % u32 else opened
    match c.tfield with
    | TField.missing =>
      { err := some GoError.clientMissingTransportField, opened := opened'
        toreDown := true }
    | TField.nilRef =>
      { err := some GoError.clientNilTransportField, opened := opened'
        toreDown := true }
    | TField.transport ce =>
      { err := ce, opened := opened', toreDown := true }

/-- Instrumented result of `closePooledClient`: the returned error, the
pool state after the call, the handle as the call leaves it (its
`client` field may have been nilled), and ghost flags for the
return-to-idle send and for physical teardown. -/
structure CloseResult where
  err : Option GoError
  pool : PoolState
  handle : PooledClientH
  returnedToIdle : Bool
  toreDown : Bool
deriving Repr

/-- `closePooledClient` (`clientpool.go`): an unusable handle goes
straight to `closeClient`; otherwise, under the mutex and only when the
pool is not closed, a non-blocking send of `cli.Client` into the idle
channel, nilling `cli.Client` on success; finally `closeClient` on
whatever `cli.Client` now holds (a no-op when the send succeeded). -/
def closePooledClient (pool : PoolState) (cli : PooledClientH) : CloseResult :=
  if cli.unusable then
    let t := closeClient pool.maxOpen pool.opened cli.client
    { err := t.err, pool := { pool with opened := t.opened }, handle := cli
      returnedToIdle := false, toreDown := t.toreDown }
  else
    match pool.clients with
    | some buf =>
      let s := trySend pool.maxIdle buf cli.client
      if s.2 then
        let cli' : PooledClientH := { cli with client := none }
        let t := closeClient pool.maxOpen pool.opened cli'.client
        { err := t.err
          pool := { pool with clients := some s.1, opened := t.opened }
          handle := cli', returnedToIdle := true, toreDown := t.toreDown }
      else
        let t := closeClient pool.maxOpen pool.opened cli.client
        { err := t.err, pool := { pool with opened := t.opened }
          handle := cli, returnedToIdle := false, toreDown := t.toreDown }
    | none =>
      let t := closeClient pool.maxOpen pool.opened cli.client
      { err := t.err, pool := { pool with opened := t.opened }
        handle := cli, returnedToIdle := false, toreDown := t.toreDown }

/-- Result of the shutdown drain: first teardown error, final `opened`,
and the ghost list of raw clients physically torn down, in drain
order. -/
structure DrainResult where
  err : Option GoError
  opened : Nat
  tore : List RawClient
deriving Repr, DecidableEq

/-- Total form of the drain loop of `Close`: tear down each buffered
client in order, keeping the first non-nil error
(`if err == nil { err = curErr }`). -/
def drainAll (maxOpen : Nat) :
    List (Option RawClient) → Nat → Option GoError → DrainResult
  | [], opened, err => { err := err, opened := opened, tore := [] }
  | c :: rest, opened, err =>
    let t := closeClient maxOpen opened c
    let d := drainAll maxOpen rest t.opened (if err.isNone then t.err else err)
    { err := d.err, opened := d.opened, tore := c.toList ++ d.tore }

/-- The `for { select { case rawCli := <-clients: ...; default: return } }`
loop of `Close`, step-indexed: each recursive call is one loop
iteration.  `none` means the given number of iterations did not reach
the `default` branch (the loop is still running); reaching the empty
buffer exits via `default` with the accumulated error. -/
def drainLoop (maxOpen : Nat) :
    Nat → List (Option RawClient) → Nat → Option GoError →
    Option (Option GoError × Nat)
  | 0, _, _, _ => none
  | _ + 1, [], opened, err => some (err, opened)
  | fuel + 1, c :: rest, opened, err =>
    let t := closeClient maxOpen opened c
    drainLoop maxOpen fuel rest t.opened (if err.isNone then t.err else err)

/-- `Close` on the pool (shutdown): under the mutex swap `pool.clients`
to nil, then drain the snapshot, tearing every buffered client down and
returning the first teardown error.  On an already-nil channel the
`select` takes `default` immediately and returns nil. -/
def poolClose (pool : PoolState) : Option GoError × PoolState :=
  match pool.clients with
  | none => (none, { pool with clients := none })
  | some buf =>
    let d := drainAll pool.maxOpen buf pool.opened none
    (d.err, { pool with clients := none, opened := d.opened })

/-- The returned error of `closeClient` on one buffered element (it does
not depend on the counter arguments). -/
def tearErr (c : Option RawClient) : Option GoError :=
  (closeClient 0 0 c).err

/-! ### Sequential operation machine

One step per public pool operation, used to state invariants over every
sequence of `Get` / handle `Close` / pool `Close` calls. -/

/-- One public operation on the pool.  `get` carries the random draw and
the collaborator outcomes of that call; `release` is a handle's `Close`
with an arbitrary handle; `shutdown` is the pool's `Close`. -/
inductive PoolOp where
  | get (r : Nat) (newSock : Nat → Option GoError) (dialE : Nat → Option GoError)
      (fac : SocketV → Option RawClient)
  | release (cli : PooledClientH)
  | shutdown

/-- The pool state after one operation. -/
def step (pool : PoolState) : PoolOp → PoolState
  | PoolOp.get r newSock dialE fac => (Get pool r newSock dialE fac).pool
  | PoolOp.release cli => (closePooledClient pool cli).pool
  | PoolOp.shutdown => (poolClose pool).2

/-- The pool state after a sequence of operations. -/
def run (pool : PoolState) (ops : List PoolOp) : PoolState :=
  ops.foldl step pool

/-! ### Interleaved model of the open-connection ceiling

`openClient` of `clientpool.go` checks the ceiling with
`atomic.LoadUint32(&pool.opened) >= pool.maxOpen` and increments with a
separate `atomic.AddUint32(&pool.opened, 1)` after the dial (the older
duplicate `maxOpenReached` / `openClient` takes and releases the mutex
once for the check and once again for the increment).  Each of these is
one atomic step, so a concurrent execution interleaves them.  The model
below runs two goroutines, each executing `openClient`, one atomic step
at a time, with a successful dial in between. -/

/-- Program counter of a goroutine inside `openClient`: about to run the
atomic ceiling load, about to dial, about to run the atomic increment,
finished, or failed with `ErrPoolMaxOpenReached`. -/
inductive TPC where
  | atCheck
  | atDial
  | atIncr
  | done
  | failed
deriving Repr, DecidableEq

/-- Shared-counter state of two goroutines both inside `openClient`. -/
structure CState where
  opened : Nat
  maxOpen : Nat
  pc1 : TPC
  pc2 : TPC
deriving Repr, DecidableEq

/-- One atomic step of a goroutine in `openClient`: the ceiling load
(fail when `maxOpen != 0` and `opened >= maxOpen`, else proceed), the
dial (modelled as succeeding), and the `uint32` increment (performed
only when `maxOpen != 0`). -/
def stepThread (opened maxOpen : Nat) : TPC → TPC × Nat
  | TPC.atCheck =>
    if maxOpen ≠ 0 ∧ maxOpen ≤ opened then (TPC.failed, opened)
    else (TPC.atDial, opened)
  | TPC.atDial => (TPC.atIncr, opened)
  | TPC.atIncr =>
    (TPC.done, if maxOpen ≠ 0 then (opened + 1) % u32 else opened)
  | pc => (pc, opened)

/-- Run the goroutine named by the scheduler bit for one atomic step. -/
def sched (s : CState) (first : Bool) : CState :=
  if first then
    let p := stepThread s.opened s.maxOpen s.pc1
    { s with pc1 := p.1, opened := p.2 }
  else
    let p := stepThread s.opened s.maxOpen s.pc2
    { s with pc2 := p.1, opened := p.2 }

/-- Run a whole schedule (a list of scheduler bits). -/
def schedRun (s : CState) (bits : List Bool) : CState :=
  bits.foldl sched s

/-- The first non-nil teardown error over a buffer, in drain order
(the aggregation the spec describes for shutdown). -/
def firstTearErr : List (Option RawClient) → Option GoError
  | [] => none
  | c :: rest =>
    match tearErr c with
    | some e => some e
    | none => firstTearErr rest

/-- The invariant carried through every operation sequence: the
configured capacity is `k` and the idle buffer, when the pool is open,
holds at most `k` clients. -/
def goodPool (k : Nat) (pool : PoolState) : Prop :=
  pool.maxIdle = k ∧ ∀ buf, pool.clients = some buf → buf.length ≤ k

/-! ### The older duplicate shutdown drain (bare receive)

The repository contains a near-duplicate older revision of the pool.
Its `Close` drains the swapped-out channel with a BARE receive,
`rawCli, ok := <-clients`, inside `for { ... }`, breaking only when
`ok` is false.  By Go channel semantics a bare receive on a buffered
channel delivers the head while elements are buffered; on an empty
channel it delivers `ok = false` only once the channel has been closed
with `close(clients)` — and no code in the package ever closes the
channel — otherwise the receiving goroutine blocks.  The fueled
interpreter below embeds exactly that loop, one iteration per fuel
unit. -/

/-- Observable fate of the bare-receive drain loop after a given number
of iterations: exited via `break` (`ok` was false), stuck forever in a
receive that can no longer deliver, or out of fuel mid-drain. -/
inductive DrainOutcome where
  | finished (err : Option GoError) (opened : Nat)
  | blocked (err : Option GoError) (opened : Nat)
  | running
deriving Repr, DecidableEq

/-- Whether the loop has exited via `break`. -/
def DrainOutcome.isFinished : DrainOutcome → Bool
  | DrainOutcome.finished _ _ => true
  | _ => false

/-- The older duplicate's `Close` drain loop: a bare receive per
iteration.  `chanClosed` records whether `close(clients)` has happened
(the package never does it); while elements are buffered each iteration
tears one down accumulating the first error, and on the empty channel
the receive either reports `ok = false` (only if the channel was
closed, exiting the loop) or blocks the goroutine for good. -/
def drainLoopBare (maxOpen : Nat) (chanClosed : Bool) :
    Nat → List (Option RawClient) → Nat → Option GoError → DrainOutcome
  | 0, _, _, _ => DrainOutcome.running
  | _ + 1, [], opened, err =>
    if chanClosed then DrainOutcome.finished err opened
    else DrainOutcome.blocked err opened
  | fuel + 1, c :: rest, opened, err =>
    let t := closeClient maxOpen opened c
    drainLoopBare maxOpen chanClosed fuel rest t.opened
      (if err.isNone then t.err else err)

/-! ### Helper lemmas -/

/-- The error returned by `closeClient` does not depend on the counter
arguments. -/
theorem closeClient_err (maxOpen opened : Nat) (c : Option RawClient) :
    (closeClient maxOpen opened c).err = tearErr c := by
  cases c with
  | none => rfl
  | some rc =>
    cases rc with
    | mk id tf => cases tf <;> rfl

/-- `closeClient` tears down exactly the non-nil clients. -/
theorem closeClient_toreDown (maxOpen opened : Nat) (c : Option RawClient) :
    (closeClient maxOpen opened c).toreDown = c.isSome := by
  cases c with
  | none => rfl
  | some rc =>
    cases rc with
    | mk id tf => cases tf <;> rfl

/-- Once the error accumulator of the drain is non-nil it is returned
unchanged (`if err == nil { err = curErr }`). -/
theorem drainAll_err_some (maxOpen : Nat) (buf : List (Option RawClient))
    (opened : Nat) (e : GoError) :
    (drainAll maxOpen buf opened (some e)).err = some e := by
  induction buf generalizing opened with
  | nil => rfl
  | cons c rest ih => simp [drainAll, ih]

/-- Starting from a nil accumulator, the drain returns the first
teardown error in buffer order. -/
theorem drainAll_err_none (maxOpen : Nat) (buf : List (Option RawClient))
    (opened : Nat) :
    (drainAll maxOpen buf opened none).err = firstTearErr buf := by
  induction buf generalizing opened with
  | nil => rfl
  | cons c rest ih =>
    simp only [drainAll, Option.isNone_none, if_true, closeClient_err, firstTearErr]
    cases h : tearErr c with
    | none => simpa [h] using ih _
    | some e => simp [h, drainAll_err_some]

/-- The drain physically tears down exactly the non-nil buffered
clients, in order. -/
theorem drainAll_tore (maxOpen : Nat) (buf : List (Option RawClient))
    (opened : Nat) (err : Option GoError) :
    (drainAll maxOpen buf opened err).tore = buf.filterMap id := by
  induction buf generalizing opened err with
  | nil => rfl
  | cons c rest ih =>
    cases c <;> simp [drainAll, ih]

/-- No teardown error at all is the same as every buffered element
closing cleanly. -/
theorem firstTearErr_eq_none (buf : List (Option RawClient)) :
    firstTearErr buf = none ↔ ∀ c ∈ buf, tearErr c = none := by
  induction buf with
  | nil => simp [firstTearErr]
  | cons c rest ih =>
    cases h : tearErr c with
    | none => simp [firstTearErr, h, ih]
    | some e => simp [firstTearErr, h]

/-! ### Claim theorems -/

/-- C3: a handle's `Close` performs exactly one of return-to-idle and
physical teardown, never both and never neither; a handle marked
unusable before `Close` is torn down, is not returned, and leaves the
idle buffer untouched, so its client cannot appear there afterwards. -/
theorem c3_close_exactly_one (pool : PoolState) (cli : PooledClientH)
    (c : RawClient) (h : cli.client = some c) :
    ((closePooledClient pool cli).returnedToIdle ≠ (closePooledClient pool cli).toreDown) ∧
    (cli.unusable = true →
      (closePooledClient pool cli).toreDown = true ∧
      (closePooledClient pool cli).returnedToIdle = false ∧
      (closePooledClient pool cli).pool.clients = pool.clients ∧
      (∀ buf buf', pool.clients = some buf →
        (closePooledClient pool cli).pool.clients = some buf' →
        (some c ∈ buf' ↔ some c ∈ buf))) := by
  by_cases hu : cli.unusable = true
  · constructor
    · simp [closePooledClient, hu, closeClient_toreDown, h]
    · intro _
      refine ⟨?_, ?_, ?_, ?_⟩
      · simp [closePooledClient, hu, closeClient_toreDown, h]
      · simp [closePooledClient, hu]
      · simp [closePooledClient, hu]
      · intro buf buf' hb hb'
        have : (closePooledClient pool cli).pool.clients = pool.clients := by
          simp [closePooledClient, hu]
        rw [this, hb] at hb'
        cases hb'
        exact Iff.rfl
  · refine ⟨?_, fun hcon => absurd hcon hu⟩
    rcases hc : pool.clients with _ | buf
    · simp [closePooledClient, hu, hc, closeClient_toreDown, h]
    · by_cases hlen : buf.length < pool.maxIdle
      · simp [closePooledClient, hu, hc, trySend, hlen, closeClient_toreDown]
      · simp [closePooledClient, hu, hc, trySend, hlen, closeClient_toreDown, h]

/-- C3 witness: a concrete unusable handle on a fresh pool. -/
theorem c3_close_exactly_one_witness :
    ((closePooledClient (NewChannelClientPool 1 0 [5] 0 0)
        { client := some { id := 7, tfield := TField.transport none }, unusable := true }).returnedToIdle ≠
      (closePooledClient (NewChannelClientPool 1 0 [5] 0 0)
        { client := some { id := 7, tfield := TField.transport none }, unusable := true }).toreDown) ∧
    (({ client := some { id := 7, tfield := TField.transport none }, unusable := true } : PooledClientH).unusable = true →
      (closePooledClient (NewChannelClientPool 1 0 [5] 0 0)
        { client := some { id := 7, tfield := TField.transport none }, unusable := true }).toreDown = true ∧
      (closePooledClient (NewChannelClientPool 1 0 [5] 0 0)
        { client := some { id := 7, tfield := TField.transport none }, unusable := true }).returnedToIdle = false ∧
      (closePooledClient (NewChannelClientPool 1 0 [5] 0 0)
        { client := some { id := 7, tfield := TField.transport none }, unusable := true }).pool.clients =
        (NewChannelClientPool 1 0 [5] 0 0).clients ∧
      (∀ buf buf', (NewChannelClientPool 1 0 [5] 0 0).clients = some buf →
        (closePooledClient (NewChannelClientPool 1 0 [5] 0 0)
          { client := some { id := 7, tfield := TField.transport none }, unusable := true }).pool.clients = some buf' →
        (some { id := 7, tfield := TField.transport none } ∈ buf' ↔
          some { id := 7, tfield := TField.transport none } ∈ buf))) :=
  c3_close_exactly_one (NewChannelClientPool 1 0 [5] 0 0)
    { client := some { id := 7, tfield := TField.transport none }, unusable := true }
    { id := 7, tfield := TField.transport none } rfl

/-- C8: `closeClient` of a nil client is a no-op returning no error and
leaving `opened` unchanged; on a non-nil client it performs the `uint32`
decrement of `opened` exactly when `maxOpen ≠ 0` (an honest `opened - 1`
in the non-wrapping range), and returns the missing-field error, the
nil-field error, or the transport's own close error according to the
client's `Transport` field. -/
theorem c8_closeClient_cases (maxOpen opened : Nat) (c : RawClient) :
    (closeClient maxOpen opened none =
      { err := none, opened := opened, toreDown := false }) ∧
    ((closeClient maxOpen opened (some c)).opened =
      (if maxOpen ≠ 0 then (opened + (u32 - 1)) % u32 else opened)) ∧
    ((closeClient maxOpen opened (some c)).toreDown = true) ∧
    (maxOpen ≠ 0 → 1 ≤ opened → opened < u32 →
      (closeClient maxOpen opened (some c)).opened = opened - 1) ∧
    (c.tfield = TField.missing →
      (closeClient maxOpen opened (some c)).err = some GoError.clientMissingTransportField) ∧
    (c.tfield = TField.nilRef →
      (closeClient maxOpen opened (some c)).err = some GoError.clientNilTransportField) ∧
    (∀ ce, c.tfield = TField.transport ce →
      (closeClient maxOpen opened (some c)).err = ce) := by
  refine ⟨rfl, ?_, ?_, ?_, ?_, ?_, ?_⟩
  · cases hf : c.tfield <;> simp [closeClient, hf]
  · cases hf : c.tfield <;> simp [closeClient, hf]
  · intro hm h1 hlt
    have hop : (closeClient maxOpen opened (some c)).opened =
        (opened + (u32 - 1)) % u32 := by
      cases hf : c.tfield <;> simp [closeClient, hf, hm]
    rw [hop]
    unfold u32 at hlt ⊢
    omega
  · intro hf; simp [closeClient, hf]
  · intro hf; simp [closeClient, hf]
  · intro ce hf; simp [closeClient, hf]

/-- C8 witness: concrete nil, missing-field, nil-field and
transport-carrying clients with `maxOpen = 1`, `opened = 1`. -/
theorem c8_closeClient_cases_witness :
    (closeClient 1 1 none = { err := none, opened := 1, toreDown := false }) ∧
    ((closeClient 1 1 (some { id := 0, tfield := TField.missing })).opened = 0) ∧
    ((closeClient 1 1 (some { id := 0, tfield := TField.missing })).err =
      some GoError.clientMissingTransportField) ∧
    ((closeClient 1 1 (some { id := 1, tfield := TField.nilRef })).err =
      some GoError.clientNilTransportField) ∧
    ((closeClient 1 1 (some { id := 2, tfield := TField.transport (some (GoError.transportCloseErr 9)) })).err =
      some (GoError.transportCloseErr 9)) := by
  have hmiss := c8_closeClient_cases 1 1 { id := 0, tfield := TField.missing }
  have hnil := c8_closeClient_cases 1 1 { id := 1, tfield := TField.nilRef }
  have htr := c8_closeClient_cases 1 1
    { id := 2, tfield := TField.transport (some (GoError.transportCloseErr 9)) }
  refine ⟨hmiss.1, ?_, hmiss.2.2.2.2.1 rfl, hnil.2.2.2.2.2.1 rfl,
    htr.2.2.2.2.2.2 (some (GoError.transportCloseErr 9)) rfl⟩
  exact hmiss.2.2.2.1 (by decide) (by decide) (by decide)

/-- C9 counterexample: on the unusable-teardown path of
`closePooledClient` the handle's internal client reference is NOT
nilled — after `Close` it still holds the original client. -/
theorem c9_counterexample :
    (closePooledClient (NewChannelClientPool 1 0 [5] 0 0)
      { client := some { id := 7, tfield := TField.transport none }, unusable := true }).handle.client =
      some { id := 7, tfield := TField.transport none } ∧
    (closePooledClient (NewChannelClientPool 1 0 [5] 0 0)
      { client := some { id := 7, tfield := TField.transport none }, unusable := true }).handle.client ≠ none := by
  constructor
  · rfl
  · intro hcon
    simp [closePooledClient, closeClient, NewChannelClientPool] at hcon

/-- C9 (amended): the handle's internal client reference is nilled by
`Close` exactly on the successful return-to-idle path; on the unusable
and fallback-teardown paths it is left unchanged. -/
theorem c9_nil_only_on_return_to_idle (pool : PoolState) (cli : PooledClientH) :
    (closePooledClient pool cli).handle.client =
      (if (closePooledClient pool cli).returnedToIdle then none else cli.client) := by
  by_cases hu : cli.unusable = true
  · simp [closePooledClient, hu]
  · rcases hc : pool.clients with _ | buf
    · simp [closePooledClient, hu, hc]
    · by_cases hlen : buf.length < pool.maxIdle
      · simp [closePooledClient, hu, hc, trySend, hlen]
      · simp [closePooledClient, hu, hc, trySend, hlen]

/-- C10: `Get` returns a handle exactly when it returns no error —
never both a handle and an error, never neither. -/
theorem c10_get_exclusive (pool : PoolState) (r : Nat)
    (newSock dialE : Nat → Option GoError) (fac : SocketV → Option RawClient) :
    ((Get pool r newSock dialE fac).cli.isSome ↔
      (Get pool r newSock dialE fac).err = none) := by
  unfold Get
  rcases hc : pool.clients with _ | buf
  · simp [getFromPool, hc]
  · rcases buf with _ | ⟨c, rest⟩
    · simp only [getFromPool, hc]
      cases hres : (openClient pool r newSock dialE fac).result <;>
        simp [hres]
    · rcases c with _ | rc
      · simp only [getFromPool, hc]
        cases hres : (openClient { pool with clients := some rest } r newSock dialE fac).result <;>
          simp [hres]
      · simp [getFromPool, hc]

/-- C4: `Get` on a shut-down pool fails with `ErrPoolClosed`; with an
empty idle buffer, `maxOpen ≠ 0` and `opened ≥ maxOpen`, `Get` fails
with `ErrPoolMaxOpenReached`; in both cases no handle is produced and
`socket.Open()` is never called. -/
theorem c4_get_fail_modes (pool : PoolState) (r : Nat)
    (newSock dialE : Nat → Option GoError) (fac : SocketV → Option RawClient) :
    (pool.clients = none →
      (Get pool r newSock dialE fac).cli = none ∧
      (Get pool r newSock dialE fac).err = some GoError.poolClosed ∧
      (Get pool r newSock dialE fac).dialAttempts = 0) ∧
    (pool.clients = some [] → pool.maxOpen ≠ 0 → pool.maxOpen ≤ pool.opened →
      (Get pool r newSock dialE fac).cli = none ∧
      (Get pool r newSock dialE fac).err = some GoError.poolMaxOpenReached ∧
      (Get pool r newSock dialE fac).dialAttempts = 0) := by
  constructor
  · intro hc
    simp [Get, getFromPool, hc]
  · intro hc hm ho
    simp [Get, getFromPool, hc, openClient, hm, ho]

/-- C4 witness: a concrete shut-down pool and a concrete pool at its
open ceiling. -/
theorem c4_get_fail_modes_witness :
    ((Get { clients := none, opened := 0, maxIdle := 1, maxOpen := 0,
            servers := [5], connectTimeout := 0, readTimeout := 0 } 0
        (fun _ => none) (fun _ => none)
        (fun s => some { id := s.server, tfield := TField.transport none })).cli = none ∧
      (Get { clients := none, opened := 0, maxIdle := 1, maxOpen := 0,
             servers := [5], connectTimeout := 0, readTimeout := 0 } 0
        (fun _ => none) (fun _ => none)
        (fun s => some { id := s.server, tfield := TField.transport none })).err =
        some GoError.poolClosed ∧
      (Get { clients := none, opened := 0, maxIdle := 1, maxOpen := 0,
             servers := [5], connectTimeout := 0, readTimeout := 0 } 0
        (fun _ => none) (fun _ => none)
        (fun s => some { id := s.server, tfield := TField.transport none })).dialAttempts = 0) ∧
    ((Get { clients := some [], opened := 1, maxIdle := 1, maxOpen := 1,
            servers := [5], connectTimeout := 0, readTimeout := 0 } 0
        (fun _ => none) (fun _ => none)
        (fun s => some { id := s.server, tfield := TField.transport none })).cli = none ∧
      (Get { clients := some [], opened := 1, maxIdle := 1, maxOpen := 1,
             servers := [5], connectTimeout := 0, readTimeout := 0 } 0
        (fun _ => none) (fun _ => none)
        (fun s => some { id := s.server, tfield := TField.transport none })).err =
        some GoError.poolMaxOpenReached ∧
      (Get { clients := some [], opened := 1, maxIdle := 1, maxOpen := 1,
             servers := [5], connectTimeout := 0, readTimeout := 0 } 0
        (fun _ => none) (fun _ => none)
        (fun s => some { id := s.server, tfield := TField.transport none })).dialAttempts = 0) :=
  ⟨(c4_get_fail_modes _ 0 (fun _ => none) (fun _ => none)
      (fun s => some { id := s.server, tfield := TField.transport none })).1 rfl,
    (c4_get_fail_modes _ 0 (fun _ => none) (fun _ => none)
      (fun s => some { id := s.server, tfield := TField.transport none })).2 rfl
      (by decide) (by decide)⟩

/-- C5: shutdown swaps the idle buffer for the terminal nil channel,
tears down every client that was buffered at swap time (best-effort),
returns the first teardown error in drain order, and returns nil exactly
when every teardown succeeded. -/
theorem c5_shutdown_best_effort (pool : PoolState)
    (buf : List (Option RawClient)) (h : pool.clients = some buf) :
    (poolClose pool).2.clients = none ∧
    (poolClose pool).1 = firstTearErr buf ∧
    (drainAll pool.maxOpen buf pool.opened none).tore = buf.filterMap id ∧
    ((poolClose pool).1 = none ↔ ∀ c ∈ buf, tearErr c = none) := by
  have hp : poolClose pool =
      ((drainAll pool.maxOpen buf pool.opened none).err,
        { pool with clients := none
                    opened := (drainAll pool.maxOpen buf pool.opened none).opened }) := by
    simp [poolClose, h]
  refine ⟨by rw [hp], ?_, drainAll_tore _ _ _ _, ?_⟩
  · rw [hp]
    exact drainAll_err_none _ _ _
  · rw [hp]
    simpa [drainAll_err_none] using firstTearErr_eq_none buf

/-- C5 witness: a pool holding one client whose transport close fails,
a nil slot, and one client that closes cleanly. -/
theorem c5_shutdown_best_effort_witness :
    ((poolClose { clients := some [some { id := 1, tfield := TField.transport (some (GoError.transportCloseErr 9)) },
                                none,
                                some { id := 2, tfield := TField.transport none }],
                  opened := 2, maxIdle := 3, maxOpen := 3,
                  servers := [5], connectTimeout := 0, readTimeout := 0 }).2.clients = none) ∧
    ((poolClose { clients := some [some { id := 1, tfield := TField.transport (some (GoError.transportCloseErr 9)) },
                                none,
                                some { id := 2, tfield := TField.transport none }],
                  opened := 2, maxIdle := 3, maxOpen := 3,
                  servers := [5], connectTimeout := 0, readTimeout := 0 }).1 =
      firstTearErr [some { id := 1, tfield := TField.transport (some (GoError.transportCloseErr 9)) },
                    none,
                    some { id := 2, tfield := TField.transport none }]) ∧
    ((drainAll 3 [some { id := 1, tfield := TField.transport (some (GoError.transportCloseErr 9)) },
                  none,
                  some { id := 2, tfield := TField.transport none }] 2 none).tore =
      [{ id := 1, tfield := TField.transport (some (GoError.transportCloseErr 9)) },
       { id := 2, tfield := TField.transport none }]) ∧
    ((poolClose { clients := some [some { id := 1, tfield := TField.transport (some (GoError.transportCloseErr 9)) },
                                none,
                                some { id := 2, tfield := TField.transport none }],
                  opened := 2, maxIdle := 3, maxOpen := 3,
                  servers := [5], connectTimeout := 0, readTimeout := 0 }).1 = none ↔
      ∀ c ∈ [some { id := 1, tfield := TField.transport (some (GoError.transportCloseErr 9)) },
             none,
             some ({ id := 2, tfield := TField.transport none } : RawClient)], tearErr c = none) := by
  have h := c5_shutdown_best_effort
    { clients := some [some { id := 1, tfield := TField.transport (some (GoError.transportCloseErr 9)) },
                       none,
                       some { id := 2, tfield := TField.transport none }],
      opened := 2, maxIdle := 3, maxOpen := 3,
      servers := [5], connectTimeout := 0, readTimeout := 0 }
    [some { id := 1, tfield := TField.transport (some (GoError.transportCloseErr 9)) },
     none,
     some { id := 2, tfield := TField.transport none }] rfl
  exact ⟨h.1, h.2.1, by simpa using h.2.2.1, h.2.2.2⟩

/-- Contrast fact about `clientpool.go`'s own drain: a handle's `Close`
only ever touches the channel through the non-blocking `trySend`
(`select` with `default`), which on every buffer state either enqueues
or immediately falls through unchanged, and the `for`/`select` drain
loop of `clientpool.go`'s shutdown, run one iteration per fuel unit,
exits via its `default` branch after exactly the swap-time buffer
contents, agreeing with the total drain. -/
theorem drainLoop_select_default_terminates :
    (∀ (cap : Nat) (buf : List (Option RawClient)) (x : Option RawClient),
      (trySend cap buf x).2 = true ∨ trySend cap buf x = (buf, false)) ∧
    (∀ (maxOpen : Nat) (buf : List (Option RawClient)) (opened : Nat)
        (err : Option GoError),
      drainLoop maxOpen (buf.length + 1) buf opened err =
        some ((drainAll maxOpen buf opened err).err,
              (drainAll maxOpen buf opened err).opened)) := by
  constructor
  · intro cap buf x
    unfold trySend
    split
    · exact Or.inl rfl
    · exact Or.inr rfl
  · intro maxOpen buf
    induction buf with
    | nil => intro opened err; rfl
    | cons c rest ih =>
      intro opened err
      simp only [List.length_cons, drainLoop, drainAll]
      exact ih _ _

/-- C6: the older duplicate's shutdown drain loop does NOT terminate
once the idle buffer is empty at swap time.  Because the package never
calls `close` on the channel (`chanClosed = false`), the loop can never
take its `break`: for every iteration budget the loop has not finished,
and with any budget beyond the swap-time contents it sits blocked in
the bare receive — concretely, on a buffer already empty at swap it is
blocked immediately. -/
theorem c6_bare_drain_never_finishes :
    (∀ (maxOpen fuel opened : Nat) (buf : List (Option RawClient))
        (err : Option GoError),
      (drainLoopBare maxOpen false fuel buf opened err).isFinished = false) ∧
    (∀ (maxOpen opened extra : Nat) (buf : List (Option RawClient))
        (err : Option GoError),
      drainLoopBare maxOpen false (buf.length + 1 + extra) buf opened err =
        DrainOutcome.blocked (drainAll maxOpen buf opened err).err
          (drainAll maxOpen buf opened err).opened) ∧
    drainLoopBare 0 false 5 [] 0 none = DrainOutcome.blocked none 0 := by
  refine ⟨?_, ?_, rfl⟩
  · intro maxOpen fuel
    induction fuel with
    | zero => intro opened buf err; rfl
    | succ n ih =>
      intro opened buf err
      cases buf with
      | nil => rfl
      | cons c rest => exact ih _ rest _
  · intro maxOpen opened extra buf
    induction buf generalizing opened with
    | nil =>
      intro err
      have h1 : ([] : List (Option RawClient)).length + 1 + extra = extra + 1 := by
        simp [Nat.add_comm]
      rw [h1]
      rfl
    | cons c rest ih =>
      intro err
      simp only [List.length_cons, drainAll]
      have : rest.length + 1 + 1 + extra = (rest.length + 1 + extra) + 1 := by omega
      rw [this]
      exact ih _ _

/-- C7: when the ceiling does not block and the socket is created,
`openClient` dials `servers[rand % len(servers)]` with `connectTimeout`
in effect; on dial failure it returns that error unmodified after
exactly one dial attempt, without invoking the factory or touching
`opened`; on success it switches the timeout to `readTimeout`,
increments `opened` exactly when `maxOpen ≠ 0`, and calls the factory
exactly once on the opened socket, returning its client. -/
theorem c7_openClient_contract (pool : PoolState) (r : Nat)
    (newSock dialE : Nat → Option GoError) (fac : SocketV → Option RawClient)
    (hserv : pool.servers ≠ [])
    (hceil : ¬(pool.maxOpen ≠ 0 ∧ pool.maxOpen ≤ pool.opened))
    (hsock : newSock (pool.servers.getD (r % pool.servers.length) 0) = none) :
    (∀ e, dialE (pool.servers.getD (r % pool.servers.length) 0) = some e →
      openClient pool r newSock dialE fac =
        { result := Except.error e
          opened := pool.opened
          dialAttempts := 1
          dialTimeout := some pool.connectTimeout
          finalTimeout := none
          factoryCalls := 0
          chosenServer := some (pool.servers.getD (r % pool.servers.length) 0) }) ∧
    (dialE (pool.servers.getD (r % pool.servers.length) 0) = none →
      openClient pool r newSock dialE fac =
        { result := Except.ok (fac { server := pool.servers.getD (r % pool.servers.length) 0
                                     timeout := pool.readTimeout })
          opened := if pool.maxOpen ≠ 0 then (pool.opened + 1) % u32 else pool.opened
          dialAttempts := 1
          dialTimeout := some pool.connectTimeout
          finalTimeout := some pool.readTimeout
          factoryCalls := 1
          chosenServer := some (pool.servers.getD (r % pool.servers.length) 0) }) := by
  constructor
  · intro e hd
    simp only [List.getD_eq_getElem?_getD] at hsock hd
    simp [openClient, hceil, hsock, hd]
  · intro hd
    simp only [List.getD_eq_getElem?_getD] at hsock hd
    simp [openClient, hceil, hsock, hd]

/-- C7 witness: two servers, `r = 1` picking the second; one failing
dial and one succeeding dial. -/
theorem c7_openClient_contract_witness :
    (openClient { clients := some [], opened := 0, maxIdle := 1, maxOpen := 2,
                  servers := [3, 4], connectTimeout := 7, readTimeout := 9 } 1
        (fun _ => none) (fun _ => some (GoError.dialErr 3))
        (fun s => some { id := s.server, tfield := TField.transport none }) =
      { result := Except.error (GoError.dialErr 3)
        opened := 0
        dialAttempts := 1
        dialTimeout := some 7
        finalTimeout := none
        factoryCalls := 0
        chosenServer := some 4 }) ∧
    (openClient { clients := some [], opened := 0, maxIdle := 1, maxOpen := 2,
                  servers := [3, 4], connectTimeout := 7, readTimeout := 9 } 1
        (fun _ => none) (fun _ => none)
        (fun s => some { id := s.server, tfield := TField.transport none }) =
      { result := Except.ok (some { id := 4, tfield := TField.transport none })
        opened := 1
        dialAttempts := 1
        dialTimeout := some 7
        finalTimeout := some 9
        factoryCalls := 1
        chosenServer := some 4 }) := by
  constructor
  · have h := (c7_openClient_contract
      { clients := some [], opened := 0, maxIdle := 1, maxOpen := 2,
        servers := [3, 4], connectTimeout := 7, readTimeout := 9 } 1
      (fun _ => none) (fun _ => some (GoError.dialErr 3))
      (fun s => some { id := s.server, tfield := TField.transport none })
      (by simp) (by decide) rfl).1 (GoError.dialErr 3) rfl
    simpa using h
  · have h := (c7_openClient_contract
      { clients := some [], opened := 0, maxIdle := 1, maxOpen := 2,
        servers := [3, 4], connectTimeout := 7, readTimeout := 9 } 1
      (fun _ => none) (fun _ => none)
      (fun s => some { id := s.server, tfield := TField.transport none })
      (by simp) (by decide) rfl).2 rfl
    simpa using h

/-- C1: as implemented, the ceiling load and the counter increment of
`openClient` are two separate atomic operations.  Interleaving two
goroutines (both pass the check before either increments) drives
`opened` to 2 with `maxOpen = 1`, with both dials succeeding: the
transient overshoot the claim rules out is reachable. -/
theorem c1_ceiling_overshoot_trace :
    (schedRun { opened := 0, maxOpen := 1, pc1 := TPC.atCheck, pc2 := TPC.atCheck }
        [true, false, true, false, true, false]).opened = 2 ∧
    (schedRun { opened := 0, maxOpen := 1, pc1 := TPC.atCheck, pc2 := TPC.atCheck }
        [true, false, true, false, true, false]).maxOpen = 1 ∧
    (schedRun { opened := 0, maxOpen := 1, pc1 := TPC.atCheck, pc2 := TPC.atCheck }
        [true, false, true, false, true, false]).pc1 = TPC.done ∧
    (schedRun { opened := 0, maxOpen := 1, pc1 := TPC.atCheck, pc2 := TPC.atCheck }
        [true, false, true, false, true, false]).pc2 = TPC.done :=
  ⟨rfl, rfl, rfl, rfl⟩

/-! ### C2: the idle buffer never outgrows `maxIdle` -/

/-- `Get` never touches `maxIdle`. -/
theorem Get_pool_maxIdle (pool : PoolState) (r : Nat)
    (newSock dialE : Nat → Option GoError) (fac : SocketV → Option RawClient) :
    (Get pool r newSock dialE fac).pool.maxIdle = pool.maxIdle := by
  unfold Get
  rcases hc : pool.clients with _ | ⟨_ | ⟨c, rest⟩⟩
  · simp [getFromPool, hc]
  · simp only [getFromPool, hc]
    cases hres : (openClient pool r newSock dialE fac).result <;> simp [hres]
  · rcases c with _ | rc
    · simp only [getFromPool, hc]
      cases hres : (openClient { pool with clients := some rest } r newSock dialE fac).result <;>
        simp [hres]
    · simp [getFromPool, hc]

/-- `Get` either leaves the idle buffer alone or pops its head. -/
theorem Get_pool_clients (pool : PoolState) (r : Nat)
    (newSock dialE : Nat → Option GoError) (fac : SocketV → Option RawClient) :
    (Get pool r newSock dialE fac).pool.clients = pool.clients ∨
    ∃ c rest, pool.clients = some (c :: rest) ∧
      (Get pool r newSock dialE fac).pool.clients = some rest := by
  unfold Get
  rcases hc : pool.clients with _ | ⟨_ | ⟨c, rest⟩⟩
  · left; simp [getFromPool, hc]
  · left
    simp only [getFromPool, hc]
    cases hres : (openClient pool r newSock dialE fac).result <;> simp [hres, hc]
  · right
    refine ⟨c, rest, rfl, ?_⟩
    rcases c with _ | rc
    · simp only [getFromPool, hc]
      cases hres : (openClient { pool with clients := some rest } r newSock dialE fac).result <;>
        simp [hres]
    · simp [getFromPool, hc]

/-- A handle's `Close` never touches `maxIdle`. -/
theorem closePooledClient_pool_maxIdle (pool : PoolState) (cli : PooledClientH) :
    (closePooledClient pool cli).pool.maxIdle = pool.maxIdle := by
  by_cases hu : cli.unusable = true
  · simp [closePooledClient, hu]
  · rcases hc : pool.clients with _ | buf
    · simp [closePooledClient, hu, hc]
    · by_cases hlen : buf.length < pool.maxIdle <;>
        simp [closePooledClient, hu, hc, trySend, hlen]

/-- A handle's `Close` either leaves the idle buffer alone or, when
there was room, appends the returned client. -/
theorem closePooledClient_pool_clients (pool : PoolState) (cli : PooledClientH) :
    (closePooledClient pool cli).pool.clients = pool.clients ∨
    ∃ buf, pool.clients = some buf ∧ buf.length < pool.maxIdle ∧
      (closePooledClient pool cli).pool.clients = some (buf ++ [cli.client]) := by
  by_cases hu : cli.unusable = true
  · left; simp [closePooledClient, hu]
  · rcases hc : pool.clients with _ | buf
    · left; simp [closePooledClient, hu, hc]
    · by_cases hlen : buf.length < pool.maxIdle
      · right
        exact ⟨buf, rfl, hlen, by simp [closePooledClient, hu, hc, trySend, hlen]⟩
      · left; simp [closePooledClient, hu, hc, trySend, hlen]

/-- Every single operation preserves the capacity invariant. -/
theorem step_good (k : Nat) (pool : PoolState) (op : PoolOp)
    (h : goodPool k pool) : goodPool k (step pool op) := by
  obtain ⟨hmi, hinv⟩ := h
  cases op with
  | get r newSock dialE fac =>
    refine ⟨by rw [step, Get_pool_maxIdle, hmi], ?_⟩
    intro buf hb
    rcases Get_pool_clients pool r newSock dialE fac with heq | ⟨c, rest, hcr, hres⟩
    · exact hinv buf (by rw [← heq, ← step]; exact hb)
    · rw [step] at hb
      rw [hb] at hres
      injection hres with hres2
      rw [hres2]
      have := hinv (c :: rest) hcr
      simp at this
      omega
  | release cli =>
    refine ⟨by rw [step, closePooledClient_pool_maxIdle, hmi], ?_⟩
    intro buf hb
    rcases closePooledClient_pool_clients pool cli with heq | ⟨buf0, hb0, hlt, hres⟩
    · exact hinv buf (by rw [← heq, ← step]; exact hb)
    · rw [step] at hb
      rw [hb] at hres
      injection hres with hres2
      rw [hres2]
      simp
      omega
  | shutdown =>
    refine ⟨?_, ?_⟩
    · rw [step]
      rcases hc : pool.clients with _ | buf <;> simp [poolClose, hc, hmi]
    · intro buf hb
      rw [step] at hb
      rcases hc : pool.clients with _ | buf0 <;> simp [poolClose, hc] at hb

/-- The invariant holds after any sequence of operations. -/
theorem run_good (k : Nat) (ops : List PoolOp) (pool : PoolState)
    (h : goodPool k pool) : goodPool k (run pool ops) := by
  induction ops generalizing pool with
  | nil => exact h
  | cons op rest ih =>
    have hstep := step_good k pool op h
    simpa [run, List.foldl] using ih (step pool op) hstep

/-- C2: starting from a fresh pool with `maxIdle = k`, after every
sequence of `Get`, handle-`Close` and shutdown operations the idle
buffer holds at most `k` clients. -/
theorem c2_size_never_exceeds_maxIdle (k maxOpen : Nat) (servers : List Nat)
    (connectTimeout readTimeout : Int) (ops : List PoolOp) :
    Size (run (NewChannelClientPool k maxOpen servers connectTimeout readTimeout) ops) ≤ k := by
  have hinit : goodPool k (NewChannelClientPool k maxOpen servers connectTimeout readTimeout) := by
    refine ⟨rfl, ?_⟩
    intro buf hb
    simp only [NewChannelClientPool, Option.some.injEq] at hb
    simp [← hb]
  have h := run_good k ops _ hinit
  rcases hc : (run (NewChannelClientPool k maxOpen servers connectTimeout readTimeout) ops).clients
    with _ | buf
  · simp [Size, hc]
  · simpa [Size, hc] using h.2 buf hc

end ThriftClientPool
